import Mathlib

/-!
Shallow embedding of `server.js` (Node.js + Express + Socket.io + SQLite
collaborative pixel canvas).  The REST handler `POST /api/place`, the
socket handlers for the events named place and getPixels, the colour
validator `validColor`, the two in-memory cooldown tables
(`global._placeCooldown` for REST, `global._socketCooldown` for sockets)
and the SQLite upsert on the `pixels` table are translated into pure
Lean functions over an explicit server state.  Storage failure is an
oracle boolean `dbFail` passed to each handler; the current wall-clock
time `Date.now()` is an explicit argument `ts`.
-/

set_option autoImplicit false

namespace Wplace

/-- A JavaScript value as far as the handlers inspect one: an integer
number (`Number.isInteger` true), a non-integer number, a string, or
anything else (undefined, null, boolean, object...). -/
inductive JVal where
  | vInt (n : Int)
  | vNum
  | vStr (s : String)
  | vOther
  deriving DecidableEq, Repr

/-- `Number.isInteger(x)` as the handlers use it. -/
def isIntVal : JVal → Bool
  | .vInt _ => true
  | _ => false

/-- A hexadecimal digit, as matched by the character class `[0-9A-Fa-f]`. -/
def isHexDigit (c : Char) : Bool :=
  (decide (48 ≤ c.toNat) && decide (c.toNat ≤ 57)) ||
  (decide (65 ≤ c.toNat) && decide (c.toNat ≤ 70)) ||
  (decide (97 ≤ c.toNat) && decide (c.toNat ≤ 102))

/-- The anchored regular expression used by `validColor` applied to a
string: a hash sign followed by exactly six hexadecimal digits. -/
def validColorStr (s : String) : Bool :=
  match s.toList with
  | c :: rest => decide (c = Char.ofNat 35) && rest.length == 6 && rest.all isHexDigit
  | [] => false

/-- `validColor(c)` from server.js line 63: `c` must be of string type
and match the anchored six-hex-digit pattern. -/
def validColor : JVal → Bool
  | .vStr s => validColorStr s
  | _ => false

/-- One row of the SQLite `pixels` table minus its key: the colour text
and the `last_modified` timestamp. -/
structure Cell where
  color : String
  last_modified : Nat
  deriving DecidableEq, Repr

/-- The `pixels` table: an association list keyed by the coordinate
pair, mirroring the primary key `(x, y)`. -/
abbrev Grid := List ((Int × Int) × Cell)

/-- A cooldown table such as `global._placeCooldown`: actor identity
(an IP string) to the timestamp of the last accepted write. -/
abbrev CooldownTable := List (String × Nat)

/-- `table[ip] || 0`: the recorded timestamp of an actor, zero when the
actor has no entry. -/
def lookupTs (tbl : CooldownTable) (ip : String) : Nat :=
  (tbl.lookup ip).getD 0

/-- `table[ip] = ts`: record the actor's accepted-write timestamp. -/
def setTs (ip : String) (ts : Nat) : CooldownTable → CooldownTable
  | [] => [(ip, ts)]
  | (k, v) :: rest => if k = ip then (ip, ts) :: rest else (k, v) :: setTs ip ts rest

/-- The SQL statement `INSERT INTO pixels ... ON CONFLICT(x,y) DO UPDATE
SET color=excluded.color, last_modified=excluded.last_modified`: replace
the row with the matching key, or append a fresh row. -/
def upsertPixel (x y : Int) (color : String) (ts : Nat) : Grid → Grid
  | [] => [((x, y), ⟨color, ts⟩)]
  | (k, v) :: rest =>
      if k = (x, y) then ((x, y), (⟨color, ts⟩ : Cell)) :: rest
      else (k, v) :: upsertPixel x y color ts rest

/-- The process configuration: canvas width and height and the place
cooldown, read from the environment at start-up. -/
structure Config where
  W : Int
  H : Int
  cooldownMs : Int
  deriving DecidableEq, Repr

/-- The default configuration: CANVAS_W 300, CANVAS_H 150,
PLACE_COOLDOWN_MS 5000. -/
def defaultConfig : Config := ⟨300, 150, 5000⟩

/-- The mutable state of the server process: the durable `pixels` table
and the two independent in-memory cooldown tables. -/
structure ServerState where
  grid : Grid
  placeCooldown : CooldownTable
  socketCooldown : CooldownTable
  deriving DecidableEq, Repr

/-- The state of a freshly started process: empty store, no cooldown
entries. -/
def initState : ServerState := ⟨[], [], []⟩

/-- A JSON response body: either an error object or the success
object. -/
inductive RespBody where
  | errorMsg (s : String)
  | okTrue
  deriving DecidableEq, Repr

/-- An HTTP response: status code and JSON body. -/
structure RestResponse where
  status : Nat
  body : RespBody
  deriving DecidableEq, Repr

/-- A socket.io emission performed by a handler.  Constructors record
the audience: events aimed at the requesting socket only versus the
broadcast to every connected client. -/
inductive Emit where
  | pixelToAll (x y : Int) (color : String)
  | placeDeniedToSender (reason : String)
  | errorToSender (msg : String)
  | pixelsToSender (rows : List (Int × Int × String))
  deriving DecidableEq, Repr

/-- Whether an emission reaches clients other than the sender: only the
pixel broadcast does. -/
def reachesOthers : Emit → Bool
  | .pixelToAll _ _ _ => true
  | _ => false

/-- `POST /api/place` (server.js lines 76-100).  Arguments are the
request body fields as JavaScript values, the requester's IP, the value
of `Date.now()`, and the storage-failure oracle.  Returns the HTTP
response, the state after the call, and the socket emissions. -/
def handleApiPlace (cfg : Config) (st : ServerState) (ip : String)
    (x y color : JVal) (ts : Nat) (dbFail : Bool) :
    RestResponse × ServerState × List Emit :=
  match x, y with
  | .vInt xi, .vInt yi =>
    if xi < 0 ∨ xi ≥ cfg.W ∨ yi < 0 ∨ yi ≥ cfg.H then
      (⟨400, .errorMsg "out of bounds"⟩, st, [])
    else
      match color with
      | .vStr s =>
        if validColorStr s then
          if (ts : Int) - (lookupTs st.placeCooldown ip : Int) < cfg.cooldownMs then
            (⟨429, .errorMsg "cooldown"⟩, st, [])
          else
            let st1 : ServerState := { st with placeCooldown := setTs ip ts st.placeCooldown }
            if dbFail then
              (⟨500, .errorMsg "db"⟩, st1, [])
            else
              (⟨200, .okTrue⟩,
               { st1 with grid := upsertPixel xi yi s ts st1.grid },
               [.pixelToAll xi yi s])
        else (⟨400, .errorMsg "invalid color"⟩, st, [])
      | _ => (⟨400, .errorMsg "invalid color"⟩, st, [])
  | _, _ => (⟨400, .errorMsg "invalid coords"⟩, st, [])

/-- The payload of a socket place message.  Destructuring
`const { x, y, color } = data` succeeds on any object (missing fields
become undefined) and throws on null or undefined; a primitive payload
destructures to all-undefined fields. -/
inductive Payload where
  | obj (x y color : JVal)
  | nonDestructurable
  deriving DecidableEq, Repr

/-- The socket handler for the event named place (server.js lines
116-142).  The try/catch swallows the destructuring throw; invalid
input returns silently; a cooldown denial emits placeDenied to the
sender; an accepted write upserts and broadcasts a pixel event. -/
def handleSocketPlace (cfg : Config) (st : ServerState) (ip : String)
    (payload : Payload) (ts : Nat) (dbFail : Bool) :
    ServerState × List Emit :=
  match payload with
  | .nonDestructurable => (st, [])
  | .obj x y color =>
    match x, y with
    | .vInt xi, .vInt yi =>
      if xi < 0 ∨ xi ≥ cfg.W ∨ yi < 0 ∨ yi ≥ cfg.H then (st, [])
      else
        match color with
        | .vStr s =>
          if validColorStr s then
            if (ts : Int) - (lookupTs st.socketCooldown ip : Int) < cfg.cooldownMs then
              (st, [.placeDeniedToSender "cooldown"])
            else
              let st1 : ServerState := { st with socketCooldown := setTs ip ts st.socketCooldown }
              if dbFail then (st1, [])
              else
                ({ st1 with grid := upsertPixel xi yi s ts st1.grid },
                 [.pixelToAll xi yi s])
          else (st, [])
        | _ => (st, [])
    | _, _ => (st, [])

/-- The socket handler for the event named getPixels (server.js lines
108-113): on storage failure emit the string db on the error channel to
the requesting socket; otherwise emit the full list of rows, projected
to x, y and colour, to the requesting socket. -/
def handleGetPixels (st : ServerState) (dbFail : Bool) :
    ServerState × List Emit :=
  if dbFail then (st, [.errorToSender "db"])
  else (st, [.pixelsToSender (st.grid.map (fun p => (p.1.1, p.1.2, p.2.color)))])

/-- Structural validity of a place request: integer coordinates in
bounds and a canonically formatted colour — the condition under which
both handlers proceed past their early returns. -/
def structValid (cfg : Config) (x y color : JVal) : Bool :=
  match x, y with
  | .vInt xi, .vInt yi =>
      decide (0 ≤ xi) && decide (xi < cfg.W) &&
      decide (0 ≤ yi) && decide (yi < cfg.H) && validColor color
  | _, _ => false

/-- Read one row of the store by its primary key, as a SELECT on
`(x, y)` would. -/
def lookupPixel (x y : Int) : Grid → Option Cell
  | [] => none
  | (k, v) :: rest => if k = (x, y) then some v else lookupPixel x y rest

theorem lookupTs_setTs_self (tbl : CooldownTable) (ip : String) (ts : Nat) :
    lookupTs (setTs ip ts tbl) ip = ts := by
  induction tbl with
  | nil => simp [setTs, lookupTs, List.lookup]
  | cons hd tl ih =>
      obtain ⟨k, v⟩ := hd
      by_cases hk : k = ip
      · subst hk
        simp [setTs, lookupTs, List.lookup]
      · simp only [setTs, if_neg hk]
        have hne : (ip == k) = false := by simp [Ne.symm hk]
        simp only [lookupTs, List.lookup, hne] at ih ⊢
        exact ih

theorem lookupPixel_upsertPixel_self (g : Grid) (x y : Int) (c : String) (ts : Nat) :
    lookupPixel x y (upsertPixel x y c ts g) = some ⟨c, ts⟩ := by
  induction g with
  | nil => simp [upsertPixel, lookupPixel]
  | cons hd tl ih =>
      obtain ⟨k, v⟩ := hd
      by_cases hk : k = (x, y)
      · simp [upsertPixel, hk, lookupPixel]
      · simp [upsertPixel, hk, lookupPixel, ih]

theorem upsertPixel_idem (g : Grid) (x y : Int) (c : String) (ts : Nat) :
    upsertPixel x y c ts (upsertPixel x y c ts g) = upsertPixel x y c ts g := by
  induction g with
  | nil => simp [upsertPixel]
  | cons hd tl ih =>
      obtain ⟨k, v⟩ := hd
      by_cases hk : k = (x, y)
      · simp [upsertPixel, hk]
      · simp [upsertPixel, hk, ih]

theorem upsertPixel_keys (g : Grid) (x y : Int) (c : String) (ts : Nat) :
    (upsertPixel x y c ts g).map Prod.fst =
      if (x, y) ∈ g.map Prod.fst then g.map Prod.fst
      else g.map Prod.fst ++ [(x, y)] := by
  induction g with
  | nil => simp [upsertPixel]
  | cons hd tl ih =>
      obtain ⟨k, v⟩ := hd
      by_cases hk : k = (x, y)
      · subst hk
        simp [upsertPixel]
      · by_cases hmem : (x, y) ∈ tl.map Prod.fst
        · simp [upsertPixel, hk, ih, hmem, Ne.symm hk]
        · simp [upsertPixel, hk, ih, hmem, Ne.symm hk]

theorem upsertPixel_keys_nodup (g : Grid) (x y : Int) (c : String) (ts : Nat)
    (h : (g.map Prod.fst).Nodup) :
    ((upsertPixel x y c ts g).map Prod.fst).Nodup := by
  rw [upsertPixel_keys]
  by_cases hmem : (x, y) ∈ g.map Prod.fst
  · simpa [hmem] using h
  · simp [hmem, List.nodup_append, h]

theorem apiPlace_invalid (cfg : Config) (st : ServerState) (ip : String)
    (x y color : JVal) (ts : Nat) (dbFail : Bool)
    (h : structValid cfg x y color = false) :
    (handleApiPlace cfg st ip x y color ts dbFail).1.status = 400 ∧
    (handleApiPlace cfg st ip x y color ts dbFail).2.1 = st ∧
    (handleApiPlace cfg st ip x y color ts dbFail).2.2 = [] ∧
    handleSocketPlace cfg st ip (.obj x y color) ts dbFail = (st, []) := by
  cases x with
  | vInt xi =>
    cases y with
    | vInt yi =>
      by_cases hb : xi < 0 ∨ xi ≥ cfg.W ∨ yi < 0 ∨ yi ≥ cfg.H
      · simp [handleApiPlace, handleSocketPlace, hb]
      · have hcol : validColor color = false := by
          cases hv : validColor color
          · rfl
          · exfalso
            simp only [structValid, hv, Bool.and_true, Bool.and_eq_false_iff,
              decide_eq_false_iff_not] at h
            omega
        cases color with
        | vStr s =>
          have hs : validColorStr s = false := by simpa [validColor] using hcol
          simp [handleApiPlace, handleSocketPlace, hb, hs]
        | vInt n => simp [handleApiPlace, handleSocketPlace, hb]
        | vNum => simp [handleApiPlace, handleSocketPlace, hb]
        | vOther => simp [handleApiPlace, handleSocketPlace, hb]
    | vNum => simp [handleApiPlace, handleSocketPlace]
    | vStr s => simp [handleApiPlace, handleSocketPlace]
    | vOther => simp [handleApiPlace, handleSocketPlace]
  | vNum => simp [handleApiPlace, handleSocketPlace]
  | vStr s => simp [handleApiPlace, handleSocketPlace]
  | vOther => simp [handleApiPlace, handleSocketPlace]

theorem apiPlace_valid_unfold (cfg : Config) (st : ServerState) (ip : String)
    (xi yi : Int) (s : String) (ts : Nat) (dbFail : Bool)
    (hx : 0 ≤ xi) (hxW : xi < cfg.W) (hy : 0 ≤ yi) (hyH : yi < cfg.H)
    (hs : validColorStr s = true) :
    handleApiPlace cfg st ip (.vInt xi) (.vInt yi) (.vStr s) ts dbFail =
      if (ts : Int) - (lookupTs st.placeCooldown ip : Int) < cfg.cooldownMs then
        (⟨429, .errorMsg "cooldown"⟩, st, [])
      else if dbFail then
        (⟨500, .errorMsg "db"⟩,
         { st with placeCooldown := setTs ip ts st.placeCooldown }, [])
      else
        (⟨200, .okTrue⟩,
         { st with placeCooldown := setTs ip ts st.placeCooldown,
                   grid := upsertPixel xi yi s ts st.grid },
         [.pixelToAll xi yi s]) := by
  have hb : ¬ (xi < 0 ∨ xi ≥ cfg.W ∨ yi < 0 ∨ yi ≥ cfg.H) := by omega
  simp [handleApiPlace, hb, hs]

theorem socketPlace_valid_unfold (cfg : Config) (st : ServerState) (ip : String)
    (xi yi : Int) (s : String) (ts : Nat) (dbFail : Bool)
    (hx : 0 ≤ xi) (hxW : xi < cfg.W) (hy : 0 ≤ yi) (hyH : yi < cfg.H)
    (hs : validColorStr s = true) :
    handleSocketPlace cfg st ip (.obj (.vInt xi) (.vInt yi) (.vStr s)) ts dbFail =
      if (ts : Int) - (lookupTs st.socketCooldown ip : Int) < cfg.cooldownMs then
        (st, [.placeDeniedToSender "cooldown"])
      else if dbFail then
        ({ st with socketCooldown := setTs ip ts st.socketCooldown }, [])
      else
        ({ st with socketCooldown := setTs ip ts st.socketCooldown,
                   grid := upsertPixel xi yi s ts st.grid },
         [.pixelToAll xi yi s]) := by
  have hb : ¬ (xi < 0 ∨ xi ≥ cfg.W ∨ yi < 0 ∨ yi ≥ cfg.H) := by omega
  simp [handleSocketPlace, hb, hs]

theorem structValid_true_elim (cfg : Config) (x y color : JVal)
    (h : structValid cfg x y color = true) :
    ∃ xi yi s, x = .vInt xi ∧ y = .vInt yi ∧ color = .vStr s ∧
      0 ≤ xi ∧ xi < cfg.W ∧ 0 ≤ yi ∧ yi < cfg.H ∧ validColorStr s = true := by
  cases x <;> cases y <;> cases color <;>
    simp_all [structValid, validColor]

/-- Claim C3: a place request rejected for invalid input or cooldown, on
either channel, leaves the store contents unchanged and emits no
broadcast to other clients (the REST path emits nothing at all; the
socket path at most sends placeDenied to the sender). -/
theorem C3_rejected_requests_no_effect (cfg : Config) (st : ServerState)
    (ip : String) (x y color : JVal) (ts : Nat) (dbFail : Bool) :
    ((structValid cfg x y color = false ∨
        (ts : Int) - (lookupTs st.placeCooldown ip : Int) < cfg.cooldownMs) →
      (handleApiPlace cfg st ip x y color ts dbFail).2.1.grid = st.grid ∧
      (handleApiPlace cfg st ip x y color ts dbFail).2.2 = []) ∧
    ((structValid cfg x y color = false ∨
        (ts : Int) - (lookupTs st.socketCooldown ip : Int) < cfg.cooldownMs) →
      (handleSocketPlace cfg st ip (.obj x y color) ts dbFail).1.grid = st.grid ∧
      ∀ e ∈ (handleSocketPlace cfg st ip (.obj x y color) ts dbFail).2,
        reachesOthers e = false) := by
  constructor
  · intro h
    cases hv : structValid cfg x y color with
    | false =>
        obtain ⟨-, h2, h3, -⟩ := apiPlace_invalid cfg st ip x y color ts dbFail hv
        exact ⟨by rw [h2], h3⟩
    | true =>
        rcases h with h | h
        · simp [hv] at h
        · obtain ⟨xi, yi, s, hx, hy, hc, h1, h2, h3, h4, h5⟩ :=
            structValid_true_elim cfg x y color hv
          subst hx; subst hy; subst hc
          rw [apiPlace_valid_unfold cfg st ip xi yi s ts dbFail h1 h2 h3 h4 h5,
            if_pos h]
          exact ⟨rfl, rfl⟩
  · intro h
    cases hv : structValid cfg x y color with
    | false =>
        obtain ⟨-, -, -, h4⟩ := apiPlace_invalid cfg st ip x y color ts dbFail hv
        rw [h4]
        exact ⟨rfl, by simp⟩
    | true =>
        rcases h with h | h
        · simp [hv] at h
        · obtain ⟨xi, yi, s, hx, hy, hc, h1, h2, h3, h4, h5⟩ :=
            structValid_true_elim cfg x y color hv
          subst hx; subst hy; subst hc
          rw [socketPlace_valid_unfold cfg st ip xi yi s ts dbFail h1 h2 h3 h4 h5,
            if_pos h]
          exact ⟨rfl, by simp [reachesOthers]⟩

/-- Witness for C3: a cooldown-denied REST request on the default
configuration leaves the store alone and emits nothing. -/
theorem C3_rejected_requests_witness :
    (handleApiPlace defaultConfig ⟨[], [("a", 99000)], []⟩ "a"
        (.vInt 3) (.vInt 4) (.vStr "#ff0000") 100000 false).2.1.grid = [] ∧
    (handleApiPlace defaultConfig ⟨[], [("a", 99000)], []⟩ "a"
        (.vInt 3) (.vInt 4) (.vStr "#ff0000") 100000 false).2.2 = [] := by
  have h := (C3_rejected_requests_no_effect defaultConfig ⟨[], [("a", 99000)], []⟩ "a"
    (.vInt 3) (.vInt 4) (.vStr "#ff0000") 100000 false).1 (Or.inr (by decide))
  exact h

/-- Claim C4: on both channels, the actor's rate-limit entry is
untouched when the request fails validation or is denied for cooldown,
and is set to the request's timestamp when the request is admitted —
for every value of the storage oracle, so an admitted request whose
upsert fails still keeps its consumed cooldown slot. -/
theorem C4_ratelimit_entry_lifecycle (cfg : Config) (st : ServerState)
    (ip : String) (x y color : JVal) (ts : Nat) (dbFail : Bool) :
    ((structValid cfg x y color = false ∨
        (ts : Int) - (lookupTs st.placeCooldown ip : Int) < cfg.cooldownMs) →
      (handleApiPlace cfg st ip x y color ts dbFail).2.1.placeCooldown
        = st.placeCooldown) ∧
    (structValid cfg x y color = true →
      cfg.cooldownMs ≤ (ts : Int) - (lookupTs st.placeCooldown ip : Int) →
      (handleApiPlace cfg st ip x y color ts dbFail).2.1.placeCooldown
          = setTs ip ts st.placeCooldown ∧
      lookupTs (handleApiPlace cfg st ip x y color ts dbFail).2.1.placeCooldown ip
          = ts) ∧
    ((structValid cfg x y color = false ∨
        (ts : Int) - (lookupTs st.socketCooldown ip : Int) < cfg.cooldownMs) →
      (handleSocketPlace cfg st ip (.obj x y color) ts dbFail).1.socketCooldown
        = st.socketCooldown) ∧
    (structValid cfg x y color = true →
      cfg.cooldownMs ≤ (ts : Int) - (lookupTs st.socketCooldown ip : Int) →
      (handleSocketPlace cfg st ip (.obj x y color) ts dbFail).1.socketCooldown
          = setTs ip ts st.socketCooldown ∧
      lookupTs (handleSocketPlace cfg st ip (.obj x y color) ts dbFail).1.socketCooldown ip
          = ts) := by
  refine ⟨?_, ?_, ?_, ?_⟩
  · intro h
    cases hv : structValid cfg x y color with
    | false =>
        obtain ⟨-, h2, -, -⟩ := apiPlace_invalid cfg st ip x y color ts dbFail hv
        rw [h2]
    | true =>
        rcases h with h | h
        · simp [hv] at h
        · obtain ⟨xi, yi, s, hx, hy, hc, h1, h2, h3, h4, h5⟩ :=
            structValid_true_elim cfg x y color hv
          subst hx; subst hy; subst hc
          rw [apiPlace_valid_unfold cfg st ip xi yi s ts dbFail h1 h2 h3 h4 h5,
            if_pos h]
  · intro hv hadm
    obtain ⟨xi, yi, s, hx, hy, hc, h1, h2, h3, h4, h5⟩ :=
      structValid_true_elim cfg x y color hv
    subst hx; subst hy; subst hc
    rw [apiPlace_valid_unfold cfg st ip xi yi s ts dbFail h1 h2 h3 h4 h5,
      if_neg (by omega)]
    cases dbFail <;>
      simp [lookupTs_setTs_self]
  · intro h
    cases hv : structValid cfg x y color with
    | false =>
        obtain ⟨-, -, -, h4⟩ := apiPlace_invalid cfg st ip x y color ts dbFail hv
        rw [h4]
    | true =>
        rcases h with h | h
        · simp [hv] at h
        · obtain ⟨xi, yi, s, hx, hy, hc, h1, h2, h3, h4, h5⟩ :=
            structValid_true_elim cfg x y color hv
          subst hx; subst hy; subst hc
          rw [socketPlace_valid_unfold cfg st ip xi yi s ts dbFail h1 h2 h3 h4 h5,
            if_pos h]
  · intro hv hadm
    obtain ⟨xi, yi, s, hx, hy, hc, h1, h2, h3, h4, h5⟩ :=
      structValid_true_elim cfg x y color hv
    subst hx; subst hy; subst hc
    rw [socketPlace_valid_unfold cfg st ip xi yi s ts dbFail h1 h2 h3 h4 h5,
      if_neg (by omega)]
    cases dbFail <;>
      simp [lookupTs_setTs_self]

/-- Witness for C4: an admitted REST request with a failing upsert still
records the actor's timestamp. -/
theorem C4_ratelimit_entry_witness :
    (handleApiPlace defaultConfig initState "a"
        (.vInt 3) (.vInt 4) (.vStr "#ff0000") 100000 true).2.1.placeCooldown
      = setTs "a" 100000 [] := by
  have h := ((C4_ratelimit_entry_lifecycle defaultConfig initState "a"
    (.vInt 3) (.vInt 4) (.vStr "#ff0000") 100000 true).2.1 (by decide) (by decide)).1
  exact h

/-- Claim C9: a socket place message whose payload is not an object has
no observable effect: the destructuring throw on a null payload is
caught by the try/catch, and a primitive payload destructures to
undefined fields and fails validation silently; in both cases the
state (store and both cooldown tables) is unchanged and nothing is
emitted to any client. -/
theorem C9_nonobject_payload_no_effect (cfg : Config) (st : ServerState)
    (ip : String) (ts : Nat) (dbFail : Bool) :
    handleSocketPlace cfg st ip .nonDestructurable ts dbFail = (st, []) ∧
    handleSocketPlace cfg st ip (.obj .vOther .vOther .vOther) ts dbFail = (st, []) :=
  ⟨rfl, rfl⟩

/-- Claim C10: a getPixels request on the real-time channel answers the
requesting client only: on storage success it emits a pixels event
holding every stored row projected to x, y and colour; on storage
failure it emits an error event with payload db and no pixels event;
in both cases the stored state is untouched, and neither emission
reaches any other client. -/
theorem C10_getPixels_response (st : ServerState) :
    handleGetPixels st false =
      (st, [.pixelsToSender (st.grid.map (fun p => (p.1.1, p.1.2, p.2.color)))]) ∧
    (∀ q, q ∈ st.grid →
      (q.1.1, q.1.2, q.2.color) ∈ st.grid.map (fun p => (p.1.1, p.1.2, p.2.color))) ∧
    handleGetPixels st true = (st, [.errorToSender "db"]) ∧
    reachesOthers (.errorToSender "db") = false ∧
    ∀ rows, reachesOthers (.pixelsToSender rows) = false := by
  refine ⟨rfl, ?_, rfl, rfl, fun _ => rfl⟩
  intro q hq
  exact List.mem_map.mpr ⟨q, hq, rfl⟩

/-- Witness for C10 at a one-row store. -/
theorem C10_getPixels_witness :
    (((1, 2), (⟨"#abcdef", 5⟩ : Cell)) ∈ ([((1, 2), ⟨"#abcdef", 5⟩)] : Grid)) ∧
    (((1 : Int), (2 : Int), "#abcdef") ∈
      ([((1, 2), ⟨"#abcdef", 5⟩)] : Grid).map (fun p => (p.1.1, p.1.2, p.2.color))) :=
  ⟨List.mem_singleton.mpr rfl,
   (C10_getPixels_response ⟨[((1, 2), ⟨"#abcdef", 5⟩)], [], []⟩).2.1
     ((1, 2), ⟨"#abcdef", 5⟩) (List.mem_singleton.mpr rfl)⟩

/-- Claim C5: structural validation passes exactly when x and y are
integer values inside the canvas bounds and the colour is a string
matching the six-hex-digit pattern; a failing request is answered 400
on the REST path and dropped silently on the socket path, with the
whole server state unchanged (so the rate limiter is never consulted
nor updated); the colours red and #ff00 and the coordinates -1 and W
are concrete failures. -/
theorem C5_structural_validation (cfg : Config) (st : ServerState) (ip : String)
    (x y color : JVal) (ts : Nat) (dbFail : Bool) :
    (structValid cfg x y color = true ↔
      ∃ xi yi s, x = .vInt xi ∧ y = .vInt yi ∧ color = .vStr s ∧
        0 ≤ xi ∧ xi < cfg.W ∧ 0 ≤ yi ∧ yi < cfg.H ∧ validColorStr s = true) ∧
    (structValid cfg x y color = false →
      (handleApiPlace cfg st ip x y color ts dbFail).1.status = 400 ∧
      (handleApiPlace cfg st ip x y color ts dbFail).2.1 = st ∧
      (handleApiPlace cfg st ip x y color ts dbFail).2.2 = [] ∧
      handleSocketPlace cfg st ip (.obj x y color) ts dbFail = (st, [])) ∧
    validColor (.vStr "red") = false ∧
    validColor (.vStr "#ff00") = false ∧
    structValid cfg (.vInt (-1)) y color = false ∧
    structValid cfg (.vInt cfg.W) y color = false := by
  refine ⟨?_, ?_, by decide, by decide, ?_, ?_⟩
  · cases x <;> cases y <;> cases color <;>
      simp [structValid, validColor, and_assoc]
  · intro h
    cases x with
    | vInt xi =>
      cases y with
      | vInt yi =>
        by_cases hb : xi < 0 ∨ xi ≥ cfg.W ∨ yi < 0 ∨ yi ≥ cfg.H
        · simp [handleApiPlace, handleSocketPlace, hb]
        · have hcol : validColor color = false := by
            cases hv : validColor color
            · rfl
            · exfalso
              simp only [structValid, hv, Bool.and_true, Bool.and_eq_false_iff,
                decide_eq_false_iff_not] at h
              omega
          cases color with
          | vStr s =>
            have hs : validColorStr s = false := by simpa [validColor] using hcol
            simp [handleApiPlace, handleSocketPlace, hb, hs]
          | vInt n => simp [handleApiPlace, handleSocketPlace, hb]
          | vNum => simp [handleApiPlace, handleSocketPlace, hb]
          | vOther => simp [handleApiPlace, handleSocketPlace, hb]
      | vNum => simp [handleApiPlace, handleSocketPlace]
      | vStr s => simp [handleApiPlace, handleSocketPlace]
      | vOther => simp [handleApiPlace, handleSocketPlace]
    | vNum => simp [handleApiPlace, handleSocketPlace]
    | vStr s => simp [handleApiPlace, handleSocketPlace]
    | vOther => simp [handleApiPlace, handleSocketPlace]
  · cases y <;> cases color <;> simp [structValid]
  · cases y <;> cases color <;> simp [structValid]

/-- Claim C8: the socket place handler emits exactly as specified: on
accept a single pixel broadcast that reaches every client including
the sender; on cooldown denial a single placeDenied with reason
cooldown that stays with the sender; on invalid input nothing. -/
theorem C8_socket_emission_table (cfg : Config) (st : ServerState) (ip : String)
    (x y color : JVal) (ts : Nat) (dbFail : Bool) :
    (structValid cfg x y color = false →
      (handleSocketPlace cfg st ip (.obj x y color) ts dbFail).2 = []) ∧
    (structValid cfg x y color = true →
      (ts : Int) - (lookupTs st.socketCooldown ip : Int) < cfg.cooldownMs →
      (handleSocketPlace cfg st ip (.obj x y color) ts dbFail).2
          = [.placeDeniedToSender "cooldown"] ∧
      reachesOthers (.placeDeniedToSender "cooldown") = false) ∧
    (∀ xi yi s, x = .vInt xi → y = .vInt yi → color = .vStr s →
      structValid cfg x y color = true →
      cfg.cooldownMs ≤ (ts : Int) - (lookupTs st.socketCooldown ip : Int) →
      (handleSocketPlace cfg st ip (.obj x y color) ts false).2
          = [.pixelToAll xi yi s] ∧
      reachesOthers (.pixelToAll xi yi s) = true) := by
  refine ⟨?_, ?_, ?_⟩
  · intro hv
    exact congrArg Prod.snd
      (apiPlace_invalid cfg st ip x y color ts dbFail hv).2.2.2
  · intro hv h
    obtain ⟨xi, yi, s, hx, hy, hc, h1, h2, h3, h4, h5⟩ :=
      structValid_true_elim cfg x y color hv
    subst hx; subst hy; subst hc
    rw [socketPlace_valid_unfold cfg st ip xi yi s ts dbFail h1 h2 h3 h4 h5,
      if_pos h]
    exact ⟨rfl, rfl⟩
  · intro xi yi s hx hy hc hv hadm
    subst hx; subst hy; subst hc
    simp only [structValid, validColor, Bool.and_eq_true, decide_eq_true_eq] at hv
    obtain ⟨⟨⟨⟨h1, h2⟩, h3⟩, h4⟩, h5⟩ := hv
    rw [socketPlace_valid_unfold cfg st ip xi yi s ts false h1 h2 h3 h4 h5,
      if_neg (by omega)]
    simp [reachesOthers]

/-- Witness for C8 at a denied request on the default configuration. -/
theorem C8_socket_emission_witness :
    (handleSocketPlace defaultConfig ⟨[], [], [("a", 99000)]⟩ "a"
        (.obj (.vInt 3) (.vInt 4) (.vStr "#ff0000")) 100000 false).2
      = [.placeDeniedToSender "cooldown"] := by
  have h := ((C8_socket_emission_table defaultConfig ⟨[], [], [("a", 99000)]⟩ "a"
    (.vInt 3) (.vInt 4) (.vStr "#ff0000") 100000 false).2.1 (by decide) (by decide)).1
  exact h

/-- Modelled from the wording of claim C1: the response table in which
out-of-bounds integer coordinates are answered with the invalid coords
body, exactly like non-integer coordinates. -/
def claimedApiResponse (cfg : Config) (st : ServerState) (ip : String)
    (x y color : JVal) (ts : Nat) (dbFail : Bool) : RestResponse :=
  match x, y with
  | .vInt xi, .vInt yi =>
    if 0 ≤ xi ∧ xi < cfg.W ∧ 0 ≤ yi ∧ yi < cfg.H then
      if validColor color then
        if (ts : Int) - (lookupTs st.placeCooldown ip : Int) < cfg.cooldownMs then
          ⟨429, .errorMsg "cooldown"⟩
        else if dbFail then ⟨500, .errorMsg "db"⟩
        else ⟨200, .okTrue⟩
      else ⟨400, .errorMsg "invalid color"⟩
    else ⟨400, .errorMsg "invalid coords"⟩
  | _, _ => ⟨400, .errorMsg "invalid coords"⟩

/-- The amended response table: integer coordinates that are out of
bounds are answered 400 with the out of bounds body, a distinct body
from the invalid coords answer to non-integer coordinates; everything
else is as claim C1 stated. -/
def amendedApiResponse (cfg : Config) (st : ServerState) (ip : String)
    (x y color : JVal) (ts : Nat) (dbFail : Bool) : RestResponse :=
  match x, y with
  | .vInt xi, .vInt yi =>
    if 0 ≤ xi ∧ xi < cfg.W ∧ 0 ≤ yi ∧ yi < cfg.H then
      if validColor color then
        if (ts : Int) - (lookupTs st.placeCooldown ip : Int) < cfg.cooldownMs then
          ⟨429, .errorMsg "cooldown"⟩
        else if dbFail then ⟨500, .errorMsg "db"⟩
        else ⟨200, .okTrue⟩
      else ⟨400, .errorMsg "invalid color"⟩
    else ⟨400, .errorMsg "out of bounds"⟩
  | _, _ => ⟨400, .errorMsg "invalid coords"⟩

/-- Counterexample to C1 as stated: at x = -1 the server answers 400
with body out of bounds, not the claimed invalid coords body. -/
theorem C1_response_counterexample :
    (handleApiPlace defaultConfig initState "a" (.vInt (-1)) (.vInt 0)
        (.vStr "#ff0000") 100000 false).1
      = ⟨400, .errorMsg "out of bounds"⟩ ∧
    claimedApiResponse defaultConfig initState "a" (.vInt (-1)) (.vInt 0)
        (.vStr "#ff0000") 100000 false
      = ⟨400, .errorMsg "invalid coords"⟩ ∧
    (handleApiPlace defaultConfig initState "a" (.vInt (-1)) (.vInt 0)
        (.vStr "#ff0000") 100000 false).1
      ≠ claimedApiResponse defaultConfig initState "a" (.vInt (-1)) (.vInt 0)
        (.vStr "#ff0000") 100000 false := by
  refine ⟨rfl, rfl, ?_⟩
  decide

/-- Claim C1 as amended: the REST response is exactly the amended
table, for every request, state, timestamp and storage outcome. -/
theorem C1_api_response_table (cfg : Config) (st : ServerState) (ip : String)
    (x y color : JVal) (ts : Nat) (dbFail : Bool) :
    (handleApiPlace cfg st ip x y color ts dbFail).1
      = amendedApiResponse cfg st ip x y color ts dbFail := by
  cases x with
  | vInt xi =>
    cases y with
    | vInt yi =>
      by_cases hb : 0 ≤ xi ∧ xi < cfg.W ∧ 0 ≤ yi ∧ yi < cfg.H
      · have hb2 : ¬ (xi < 0 ∨ xi ≥ cfg.W ∨ yi < 0 ∨ yi ≥ cfg.H) := by omega
        cases color with
        | vStr s =>
          cases hs : validColorStr s with
          | false => simp [handleApiPlace, amendedApiResponse, hb, hb2, validColor, hs]
          | true =>
            simp only [handleApiPlace, amendedApiResponse, if_pos hb, if_neg hb2,
              validColor, hs, if_pos trivial]
            split
            · rfl
            · split <;> rfl
        | vInt n => simp [handleApiPlace, amendedApiResponse, hb, hb2, validColor]
        | vNum => simp [handleApiPlace, amendedApiResponse, hb, hb2, validColor]
        | vOther => simp [handleApiPlace, amendedApiResponse, hb, hb2, validColor]
      · have hb2 : xi < 0 ∨ xi ≥ cfg.W ∨ yi < 0 ∨ yi ≥ cfg.H := by omega
        simp [handleApiPlace, amendedApiResponse, hb, hb2]
    | vNum => rfl
    | vStr s => rfl
    | vOther => rfl
  | vNum => rfl
  | vStr s => rfl
  | vOther => rfl

/-- Witness for C5 at colour red on the default canvas. -/
theorem C5_structural_validation_witness :
    structValid defaultConfig (.vInt 3) (.vInt 4) (.vStr "red") = false ∧
    (handleApiPlace defaultConfig initState "a" (.vInt 3) (.vInt 4) (.vStr "red")
        100000 false).1.status = 400 := by
  have h := (C5_structural_validation defaultConfig initState "a"
    (.vInt 3) (.vInt 4) (.vStr "red") 100000 false).2.1 (by decide)
  exact ⟨by decide, h.1⟩

/-- Counterexample to C2 as stated: the two channels keep separate
cooldown tables, so a REST placement accepted at time 100000 does not
cool down the same actor on the socket channel: a socket placement one
millisecond later is admitted and broadcast rather than denied. -/
theorem C2_crosschannel_counterexample :
    (handleApiPlace defaultConfig initState "a" (.vInt 0) (.vInt 0)
        (.vStr "#ff0000") 100000 false).1 = ⟨200, .okTrue⟩ ∧
    ((100001 : Int) - (100000 : Int) < defaultConfig.cooldownMs) ∧
    (handleSocketPlace defaultConfig
        (handleApiPlace defaultConfig initState "a" (.vInt 0) (.vInt 0)
          (.vStr "#ff0000") 100000 false).2.1
        "a" (.obj (.vInt 1) (.vInt 0) (.vStr "#00ff00")) 100001 false).2
      = [.pixelToAll 1 0 "#00ff00"] ∧
    [Emit.pixelToAll 1 0 "#00ff00"] ≠ [Emit.placeDeniedToSender "cooldown"] := by
  exact ⟨rfl, by decide, rfl, by decide⟩

/-- Claim C2 as amended: each channel owns its own per-actor table, and
within one channel an actor is admitted exactly when the current time
minus its recorded timestamp (zero when absent) is at least the
cooldown; hence two otherwise-valid calls from one actor on the same
channel within the cooldown window have the first admitted and the
second denied, regardless of target coordinates and of the storage
outcome of either call. -/
theorem C2_same_channel_cooldown (cfg : Config) (st : ServerState) (ip : String)
    (x1 y1 c1 x2 y2 c2 : JVal) (ts1 ts2 : Nat) (db1 db2 : Bool)
    (hv1 : structValid cfg x1 y1 c1 = true)
    (hv2 : structValid cfg x2 y2 c2 = true)
    (hwin : (ts2 : Int) - (ts1 : Int) < cfg.cooldownMs) :
    (cfg.cooldownMs ≤ (ts1 : Int) - (lookupTs st.placeCooldown ip : Int) →
      (handleApiPlace cfg st ip x1 y1 c1 ts1 db1).1.status
          = (if db1 then 500 else 200) ∧
      (handleApiPlace cfg
          (handleApiPlace cfg st ip x1 y1 c1 ts1 db1).2.1 ip x2 y2 c2 ts2 db2).1
        = ⟨429, .errorMsg "cooldown"⟩) ∧
    (cfg.cooldownMs ≤ (ts1 : Int) - (lookupTs st.socketCooldown ip : Int) →
      (handleSocketPlace cfg st ip (.obj x1 y1 c1) ts1 db1).2
          ≠ [.placeDeniedToSender "cooldown"] ∧
      (handleSocketPlace cfg
          (handleSocketPlace cfg st ip (.obj x1 y1 c1) ts1 db1).1 ip
          (.obj x2 y2 c2) ts2 db2).2
        = [.placeDeniedToSender "cooldown"]) := by
  obtain ⟨xa, ya, sa, hxa, hya, hca, ha1, ha2, ha3, ha4, ha5⟩ :=
    structValid_true_elim cfg x1 y1 c1 hv1
  obtain ⟨xb, yb, sb, hxb, hyb, hcb, hb1, hb2, hb3, hb4, hb5⟩ :=
    structValid_true_elim cfg x2 y2 c2 hv2
  subst hxa; subst hya; subst hca; subst hxb; subst hyb; subst hcb
  constructor
  · intro hadm
    rw [apiPlace_valid_unfold cfg st ip xa ya sa ts1 db1 ha1 ha2 ha3 ha4 ha5,
      if_neg (by omega)]
    constructor
    · cases db1 <;> rfl
    · have hstep : ∀ r : ServerState, r.placeCooldown = setTs ip ts1 st.placeCooldown →
          (handleApiPlace cfg r ip (.vInt xb) (.vInt yb) (.vStr sb) ts2 db2).1
            = ⟨429, .errorMsg "cooldown"⟩ := by
        intro r hr
        rw [apiPlace_valid_unfold cfg r ip xb yb sb ts2 db2 hb1 hb2 hb3 hb4 hb5,
          if_pos (by rw [hr, lookupTs_setTs_self]; omega)]
      cases db1
      · exact hstep _ rfl
      · exact hstep _ rfl
  · intro hadm
    rw [socketPlace_valid_unfold cfg st ip xa ya sa ts1 db1 ha1 ha2 ha3 ha4 ha5,
      if_neg (by omega)]
    constructor
    · cases db1 <;> simp
    · have hstep : ∀ r : ServerState, r.socketCooldown = setTs ip ts1 st.socketCooldown →
          (handleSocketPlace cfg r ip (.obj (.vInt xb) (.vInt yb) (.vStr sb)) ts2 db2).2
            = [.placeDeniedToSender "cooldown"] := by
        intro r hr
        rw [socketPlace_valid_unfold cfg r ip xb yb sb ts2 db2 hb1 hb2 hb3 hb4 hb5,
          if_pos (by rw [hr, lookupTs_setTs_self]; omega)]
      cases db1
      · exact hstep _ rfl
      · exact hstep _ rfl

/-- Witness for C2 amended with two same-channel REST calls one
millisecond apart. -/
theorem C2_same_channel_witness :
    (handleApiPlace defaultConfig
        (handleApiPlace defaultConfig initState "a" (.vInt 0) (.vInt 0)
          (.vStr "#ff0000") 100000 false).2.1
        "a" (.vInt 7) (.vInt 8) (.vStr "#00ff00") 100001 false).1
      = ⟨429, .errorMsg "cooldown"⟩ := by
  have h := ((C2_same_channel_cooldown defaultConfig initState "a"
    (.vInt 0) (.vInt 0) (.vStr "#ff0000") (.vInt 7) (.vInt 8) (.vStr "#00ff00")
    100000 100001 false false (by decide) (by decide) (by decide)).1 (by decide)).2
  exact h

theorem apiPlace_grid_cases (cfg : Config) (st : ServerState) (ip : String)
    (x y color : JVal) (ts : Nat) (dbFail : Bool) :
    (handleApiPlace cfg st ip x y color ts dbFail).2.1.grid = st.grid ∨
    ∃ xi yi s, (handleApiPlace cfg st ip x y color ts dbFail).2.1.grid
      = upsertPixel xi yi s ts st.grid := by
  cases hv : structValid cfg x y color with
  | false =>
      left
      exact congrArg ServerState.grid
        (apiPlace_invalid cfg st ip x y color ts dbFail hv).2.1
  | true =>
      obtain ⟨xi, yi, s, hx, hy, hc, h1, h2, h3, h4, h5⟩ :=
        structValid_true_elim cfg x y color hv
      subst hx; subst hy; subst hc
      rw [apiPlace_valid_unfold cfg st ip xi yi s ts dbFail h1 h2 h3 h4 h5]
      by_cases hcd : (ts : Int) - (lookupTs st.placeCooldown ip : Int) < cfg.cooldownMs
      · left; rw [if_pos hcd]
      · rw [if_neg hcd]
        cases dbFail
        · right; exact ⟨xi, yi, s, rfl⟩
        · left; rfl

theorem socketPlace_grid_cases (cfg : Config) (st : ServerState) (ip : String)
    (payload : Payload) (ts : Nat) (dbFail : Bool) :
    (handleSocketPlace cfg st ip payload ts dbFail).1.grid = st.grid ∨
    ∃ xi yi s, (handleSocketPlace cfg st ip payload ts dbFail).1.grid
      = upsertPixel xi yi s ts st.grid := by
  cases payload with
  | nonDestructurable => left; rfl
  | obj x y color =>
    cases hv : structValid cfg x y color with
    | false =>
        left
        rw [(apiPlace_invalid cfg st ip x y color ts dbFail hv).2.2.2]
    | true =>
        obtain ⟨xi, yi, s, hx, hy, hc, h1, h2, h3, h4, h5⟩ :=
          structValid_true_elim cfg x y color hv
        subst hx; subst hy; subst hc
        rw [socketPlace_valid_unfold cfg st ip xi yi s ts dbFail h1 h2 h3 h4 h5]
        by_cases hcd : (ts : Int) - (lookupTs st.socketCooldown ip : Int) < cfg.cooldownMs
        · left; rw [if_pos hcd]
        · rw [if_neg hcd]
          cases dbFail
          · right; exact ⟨xi, yi, s, rfl⟩
          · left; rfl

/-- Claim C6: the upsert is idempotent — repeating it with identical
arguments leaves the store as after one call — and a resubmission of
the same coordinate and colour after the actor's cooldown has elapsed
is accepted again and leaves the stored cell with the same colour,
only its timestamp moved forward. -/
theorem C6_upsert_idempotent_resubmission (cfg : Config) (st : ServerState)
    (ip : String) (xi yi : Int) (s : String) (ts1 ts2 : Nat)
    (hv : structValid cfg (.vInt xi) (.vInt yi) (.vStr s) = true)
    (hadm1 : cfg.cooldownMs ≤ (ts1 : Int) - (lookupTs st.placeCooldown ip : Int))
    (hgap : cfg.cooldownMs ≤ (ts2 : Int) - (ts1 : Int))
    (hcd : 0 ≤ cfg.cooldownMs) :
    (∀ (g : Grid) (a b : Int) (c : String) (t : Nat),
        upsertPixel a b c t (upsertPixel a b c t g) = upsertPixel a b c t g) ∧
    (handleApiPlace cfg st ip (.vInt xi) (.vInt yi) (.vStr s) ts1 false).1
        = ⟨200, .okTrue⟩ ∧
    lookupPixel xi yi
        (handleApiPlace cfg st ip (.vInt xi) (.vInt yi) (.vStr s) ts1 false).2.1.grid
        = some ⟨s, ts1⟩ ∧
    (handleApiPlace cfg
        (handleApiPlace cfg st ip (.vInt xi) (.vInt yi) (.vStr s) ts1 false).2.1
        ip (.vInt xi) (.vInt yi) (.vStr s) ts2 false).1
        = ⟨200, .okTrue⟩ ∧
    lookupPixel xi yi
        (handleApiPlace cfg
          (handleApiPlace cfg st ip (.vInt xi) (.vInt yi) (.vStr s) ts1 false).2.1
          ip (.vInt xi) (.vInt yi) (.vStr s) ts2 false).2.1.grid
        = some ⟨s, ts2⟩ ∧
    ts1 ≤ ts2 := by
  simp only [structValid, validColor, Bool.and_eq_true, decide_eq_true_eq] at hv
  obtain ⟨⟨⟨⟨h1, h2⟩, h3⟩, h4⟩, h5⟩ := hv
  have e1 : handleApiPlace cfg st ip (.vInt xi) (.vInt yi) (.vStr s) ts1 false
      = (⟨200, .okTrue⟩,
         { st with placeCooldown := setTs ip ts1 st.placeCooldown,
                   grid := upsertPixel xi yi s ts1 st.grid },
         [.pixelToAll xi yi s]) := by
    rw [apiPlace_valid_unfold cfg st ip xi yi s ts1 false h1 h2 h3 h4 h5,
      if_neg (by omega)]
    rfl
  set st1 : ServerState :=
    { st with placeCooldown := setTs ip ts1 st.placeCooldown,
              grid := upsertPixel xi yi s ts1 st.grid } with hst1
  have hl : lookupTs st1.placeCooldown ip = ts1 := lookupTs_setTs_self _ _ _
  have e2 : handleApiPlace cfg st1 ip (.vInt xi) (.vInt yi) (.vStr s) ts2 false
      = (⟨200, .okTrue⟩,
         { st1 with placeCooldown := setTs ip ts2 st1.placeCooldown,
                    grid := upsertPixel xi yi s ts2 st1.grid },
         [.pixelToAll xi yi s]) := by
    rw [apiPlace_valid_unfold cfg st1 ip xi yi s ts2 false h1 h2 h3 h4 h5,
      if_neg (by rw [hl]; omega)]
    rfl
  refine ⟨fun g a b c t => upsertPixel_idem g a b c t, ?_, ?_, ?_, ?_, ?_⟩
  · rw [e1]
  · rw [e1]
    exact lookupPixel_upsertPixel_self st.grid xi yi s ts1
  · rw [e1]
    show (handleApiPlace cfg st1 ip (.vInt xi) (.vInt yi) (.vStr s) ts2 false).1
      = ⟨200, .okTrue⟩
    rw [e2]
  · rw [e1]
    show lookupPixel xi yi
        (handleApiPlace cfg st1 ip (.vInt xi) (.vInt yi) (.vStr s) ts2 false).2.1.grid
      = some ⟨s, ts2⟩
    rw [e2]
    exact lookupPixel_upsertPixel_self st1.grid xi yi s ts2
  · omega

/-- Witness for C6: an accepted resubmission of the same pixel 6000 ms
later keeps the colour and moves the timestamp. -/
theorem C6_upsert_idempotent_witness :
    lookupPixel 3 4
        (handleApiPlace defaultConfig
          (handleApiPlace defaultConfig initState "a" (.vInt 3) (.vInt 4)
            (.vStr "#ff0000") 100000 false).2.1
          "a" (.vInt 3) (.vInt 4) (.vStr "#ff0000") 106000 false).2.1.grid
      = some ⟨"#ff0000", 106000⟩ := by
  have h := (C6_upsert_idempotent_resubmission defaultConfig initState "a"
    3 4 "#ff0000" 100000 106000 (by decide) (by decide) (by decide)
    (by decide)).2.2.2.2.1
  exact h

/-- Claim C7: the store keeps at most one row per coordinate pair —
both handlers preserve distinctness of the stored keys — and a write
to an existing coordinate replaces colour and timestamp together: after
two upserts to the same key the row holds exactly the colour and the
timestamp of the later one, also through two accepted REST placements
in sequence. -/
theorem C7_one_row_last_write_wins (cfg : Config) (st : ServerState)
    (ip : String) (x y color : JVal) (payload : Payload) (ts : Nat) (dbFail : Bool)
    (h : (st.grid.map Prod.fst).Nodup) :
    ((handleApiPlace cfg st ip x y color ts dbFail).2.1.grid.map Prod.fst).Nodup ∧
    ((handleSocketPlace cfg st ip payload ts dbFail).1.grid.map Prod.fst).Nodup ∧
    (∀ (g : Grid) (a b : Int) (c1 : String) (t1 : Nat) (c2 : String) (t2 : Nat),
        lookupPixel a b (upsertPixel a b c2 t2 (upsertPixel a b c1 t1 g))
          = some ⟨c2, t2⟩) ∧
    (∀ (a b : Int) (s1 s2 : String) (t1 t2 : Nat),
        structValid cfg (.vInt a) (.vInt b) (.vStr s1) = true →
        structValid cfg (.vInt a) (.vInt b) (.vStr s2) = true →
        cfg.cooldownMs ≤ (t1 : Int) - (lookupTs st.placeCooldown ip : Int) →
        cfg.cooldownMs ≤ (t2 : Int) - (t1 : Int) →
        lookupPixel a b
          (handleApiPlace cfg
            (handleApiPlace cfg st ip (.vInt a) (.vInt b) (.vStr s1) t1 false).2.1
            ip (.vInt a) (.vInt b) (.vStr s2) t2 false).2.1.grid
          = some ⟨s2, t2⟩) := by
  refine ⟨?_, ?_, ?_, ?_⟩
  · rcases apiPlace_grid_cases cfg st ip x y color ts dbFail with hg | ⟨xi, yi, s, hg⟩
    · rw [hg]; exact h
    · rw [hg]; exact upsertPixel_keys_nodup st.grid xi yi s ts h
  · rcases socketPlace_grid_cases cfg st ip payload ts dbFail with hg | ⟨xi, yi, s, hg⟩
    · rw [hg]; exact h
    · rw [hg]; exact upsertPixel_keys_nodup st.grid xi yi s ts h
  · intro g a b c1 t1 c2 t2
    exact lookupPixel_upsertPixel_self (upsertPixel a b c1 t1 g) a b c2 t2
  · intro a b s1 s2 t1 t2 hv1 hv2 hadm1 hgap
    simp only [structValid, validColor, Bool.and_eq_true, decide_eq_true_eq] at hv1 hv2
    obtain ⟨⟨⟨⟨ha1, ha2⟩, ha3⟩, ha4⟩, ha5⟩ := hv1
    obtain ⟨-, hb5⟩ := hv2
    have e1 : handleApiPlace cfg st ip (.vInt a) (.vInt b) (.vStr s1) t1 false
        = (⟨200, .okTrue⟩,
           { st with placeCooldown := setTs ip t1 st.placeCooldown,
                     grid := upsertPixel a b s1 t1 st.grid },
           [.pixelToAll a b s1]) := by
      rw [apiPlace_valid_unfold cfg st ip a b s1 t1 false ha1 ha2 ha3 ha4 ha5,
        if_neg (by omega)]
      rfl
    rw [e1]
    set st1 : ServerState :=
      { st with placeCooldown := setTs ip t1 st.placeCooldown,
                grid := upsertPixel a b s1 t1 st.grid } with hst1
    have hl : lookupTs st1.placeCooldown ip = t1 := lookupTs_setTs_self _ _ _
    have e2 : handleApiPlace cfg st1 ip (.vInt a) (.vInt b) (.vStr s2) t2 false
        = (⟨200, .okTrue⟩,
           { st1 with placeCooldown := setTs ip t2 st1.placeCooldown,
                      grid := upsertPixel a b s2 t2 st1.grid },
           [.pixelToAll a b s2]) := by
      rw [apiPlace_valid_unfold cfg st1 ip a b s2 t2 false ha1 ha2 ha3 ha4 hb5,
        if_neg (by rw [hl]; omega)]
      rfl
    rw [e2]
    exact lookupPixel_upsertPixel_self st1.grid a b s2 t2

/-- Witness for C7: two accepted placements of different colours on the
same cell leave only the later colour and timestamp. -/
theorem C7_one_row_last_write_wins_witness :
    (((handleApiPlace defaultConfig initState "a" (.vInt 3) (.vInt 4)
        (.vStr "#ff0000") 100000 false).2.1.grid.map Prod.fst).Nodup) ∧
    lookupPixel 3 4
        (handleApiPlace defaultConfig
          (handleApiPlace defaultConfig initState "a" (.vInt 3) (.vInt 4)
            (.vStr "#ff0000") 100000 false).2.1
          "a" (.vInt 3) (.vInt 4) (.vStr "#00ff00") 106000 false).2.1.grid
      = some ⟨"#00ff00", 106000⟩ := by
  have h := C7_one_row_last_write_wins defaultConfig initState "a"
    (.vInt 3) (.vInt 4) (.vStr "#ff0000") .nonDestructurable 100000 false
    (by decide)
  exact ⟨h.1, h.2.2.2 3 4 "#ff0000" "#00ff00" 100000 106000
    (by decide) (by decide) (by decide) (by decide)⟩

end Wplace
